import Mathlib

/-!
Verification of the Kisan-Mitra knowledge retrieval core against its
specification.  The data stores (knowledge graph, time-series store,
vector store) are embedded shallowly: each DynamoDB-backed TypeScript
function becomes a pure Lean function over an explicit store value
(a list of stored items), numbers become rationals (reals where the
source takes a square root), and fallible operations return `Except`.
-/

namespace KisanMitra

/-! ## Common helpers -/

/-- JavaScript `s.toLowerCase().replace(/\s+/g, '_')` on the character
list: every maximal run of whitespace becomes a single underscore and
letters are lower-cased. -/
def collapseWs : Bool → List Char → List Char
  | _, [] => []
  | inWs, c :: cs =>
    if c.isWhitespace then
      if inWs then collapseWs true cs else '_' :: collapseWs true cs
    else c.toLower :: collapseWs false cs

/-- The identifier slug used throughout the source:
`name.toLowerCase().replace(/\s+/g, '_')`. -/
def slug (s : String) : String := ⟨collapseWs false s.data⟩

/-- Minimum of a value list, `Math.min(...values)` (total: 0 on empty,
which the source never reaches). -/
def listMin : List ℚ → ℚ
  | [] => 0
  | x :: xs => xs.foldl min x

/-- Maximum of a value list, `Math.max(...values)`. -/
def listMax : List ℚ → ℚ
  | [] => 0
  | x :: xs => xs.foldl max x

/-- First-occurrence deduplication: the iteration order of a JavaScript
`Set` built from a list. -/
def insertionDedup [DecidableEq α] (l : List α) : List α :=
  l.foldl (fun acc x => if x ∈ acc then acc else acc ++ [x]) []

/-! ## Knowledge graph (`src/data/knowledge-graph.ts`)

The DynamoDB table has composite key `(nodeId, relationshipType)`;
node rows use the sentinel sort key `"NODE"`.  The store is the list of
rows, a `put` replaces the row with the same key. -/

/-- One row of the knowledge-graph table.  Node rows carry `type` and
`name`; relationship rows carry `targetNodeId`; `entityType`
distinguishes them.  `properties` stands for the `JSON.stringify`d
properties object (`none` models the stored `null`). -/
structure KGItem where
  nodeId : String
  relationshipType : String
  entityType : String
  type : String
  name : String
  targetNodeId : String
  properties : Option String
  source : String
  confidence : ℚ
deriving DecidableEq, Repr

abbrev KGStore := List KGItem

/-- DynamoDB `put`: replaces any row with the same composite key. -/
def kgPut (st : KGStore) (item : KGItem) : KGStore :=
  item :: st.filter (fun i =>
    ¬(i.nodeId = item.nodeId ∧ i.relationshipType = item.relationshipType))

/-- `getNode`: point lookup under the sentinel sort key `"NODE"`. -/
def getNode (st : KGStore) (nodeId : String) : Option KGItem :=
  st.find? (fun i => i.nodeId = nodeId ∧ i.relationshipType = "NODE")

/-- The argument record of `createRelationship`; `confidence` and
`source` are optional in the source and defaulted with `||`. -/
structure RelInput where
  nodeId : String
  relationshipType : String
  targetNodeId : String
  properties : Option String
  confidence : Option ℚ
  source : Option String

/-- JavaScript `relationship.confidence || 1.0`: `undefined` and `0`
are both falsy and replaced by `1.0`. -/
def confidenceOrDefault : Option ℚ → ℚ
  | none => 1
  | some c => if c = 0 then 1 else c

/-- JavaScript `relationship.source || 'manual'`: `undefined` and the
empty string are falsy. -/
def sourceOrDefault : Option String → String
  | none => "manual"
  | some s => if s = "" then "manual" else s

/-- `createRelationship`: writes the forward edge, then the reverse
twin under the `"reverse:" + type` sort key with the same defaulted
`properties`, `source` and `confidence`. -/
def createRelationship (st : KGStore) (r : RelInput) : KGStore :=
  let forward : KGItem :=
    { nodeId := r.nodeId
      relationshipType := r.relationshipType
      entityType := "RELATIONSHIP"
      type := "", name := ""
      targetNodeId := r.targetNodeId
      properties := r.properties
      source := sourceOrDefault r.source
      confidence := confidenceOrDefault r.confidence }
  let reverse : KGItem :=
    { nodeId := r.targetNodeId
      relationshipType := "reverse:" ++ r.relationshipType
      entityType := "RELATIONSHIP"
      type := "", name := ""
      targetNodeId := r.nodeId
      properties := r.properties
      source := sourceOrDefault r.source
      confidence := confidenceOrDefault r.confidence }
  kgPut (kgPut st forward) reverse

/-- `getRelatedEntities`: queries the `(nodeId, relationshipType)` key
pair — prefixing `"reverse:"` when `reverse` is set — and returns the
target node ids. -/
def getRelatedEntities (st : KGStore) (nodeId : String)
    (relationshipType : String) (reverse : Bool) : List String :=
  let actualRelationshipType :=
    if reverse then "reverse:" ++ relationshipType else relationshipType
  (st.filter (fun i =>
    i.nodeId = nodeId ∧ i.relationshipType = actualRelationshipType ∧
      i.entityType = "RELATIONSHIP")).map (·.targetNodeId)

/-- Point lookup of the row at a composite key (used to compare the
stored forward and reverse edges). -/
def kgFind (st : KGStore) (nodeId relationshipType : String) : Option KGItem :=
  st.find? (fun i => i.nodeId = nodeId ∧ i.relationshipType = relationshipType)

/-! ### Crop recommendation (`getRecommendedCrops`) -/

/-- An entry of the `getRecommendedCrops` result. -/
structure CropRec where
  cropId : String
  cropName : String
  suitabilityScore : ℚ
  reasonsForRecommendation : List String
deriving DecidableEq, Repr

/-- Crops `suitable_for` the district node. -/
def locationCropIds (st : KGStore) (district : String) : List String :=
  getRelatedEntities st ("location:" ++ slug district) "suitable_for" false

/-- Crops reachable by reverse `grown_during` from the season node. -/
def seasonCropIds (st : KGStore) (season : String) : List String :=
  getRelatedEntities st ("season:" ++ slug season) "grown_during" true

/-- Crops `suitable_for` the soil node. -/
def soilCropIds (st : KGStore) (soilType : String) : List String :=
  getRelatedEntities st ("soil:" ++ slug soilType) "suitable_for" false

/-- Descending order on suitability scores, the comparator
`(a, b) => b.suitabilityScore - a.suitabilityScore` of the stable
JavaScript sort. -/
def cropGE (a b : CropRec) : Prop := b.suitabilityScore ≤ a.suitabilityScore

instance : DecidableRel cropGE := fun a b =>
  inferInstanceAs (Decidable (b.suitabilityScore ≤ a.suitabilityScore))

instance : IsTotal CropRec cropGE := ⟨fun a b => le_total b.suitabilityScore a.suitabilityScore⟩

instance : IsTrans CropRec cropGE := ⟨fun _ _ _ h h2 => le_trans h2 h⟩

/-- The candidate scoring loop of `getRecommendedCrops`: a `Set`-union
of the three traversal results (first-seen order), a score of `+0.4`
per matched location or season criterion and `+0.2` for soil, one
reason string per matched criterion, and zero scores dropped. -/
def cropDetails (st : KGStore) (district soilType season : String) :
    List CropRec :=
  let locIds := locationCropIds st district
  let seaIds := seasonCropIds st season
  let soiIds := soilCropIds st soilType
  let allCropIds := insertionDedup (locIds ++ seaIds ++ soiIds)
  allCropIds.filterMap (fun cropId =>
    match getNode st cropId with
    | none => none
    | some crop =>
      let suitabilityScore : ℚ :=
        (if cropId ∈ locIds then 2/5 else 0) +
        (if cropId ∈ seaIds then 2/5 else 0) +
        (if cropId ∈ soiIds then 1/5 else 0)
      let reasons :=
        (if cropId ∈ locIds then ["Suitable for " ++ district ++ " region"] else []) ++
        (if cropId ∈ seaIds then ["Ideal for " ++ season ++ " season"] else []) ++
        (if cropId ∈ soiIds then ["Well-suited for " ++ soilType ++ " soil"] else [])
      if 0 < suitabilityScore then
        some ⟨crop.nodeId, crop.name, suitabilityScore, reasons⟩
      else none)

/-- The success path of `getRecommendedCrops`: the scored candidates
in a stable descending sort.  (The fixed fallback list lives in the
`catch` handler, reached only when a backend call throws — see
`fallbackCrops`.) -/
def getRecommendedCrops (st : KGStore) (district soilType season : String) :
    List CropRec :=
  List.insertionSort cropGE (cropDetails st district soilType season)

/-- The fixed staple-crop list of the `catch` handler of
`getRecommendedCrops`. -/
def fallbackCrops : List CropRec :=
  [ ⟨"crop:wheat", "Wheat", 9/10, ["Common crop for most regions"]⟩,
    ⟨"crop:rice", "Rice", 4/5, ["Staple crop in many regions"]⟩,
    ⟨"crop:maize", "Maize", 7/10, ["Versatile crop for various conditions"]⟩ ]

/-! ## Time-series store (`time-series-db.ts`)

Timestamps are epoch milliseconds, modeled as integers; values as
rationals.  The DynamoDB table has composite key
`(metricId, timestamp)` and a range query returns points in ascending
timestamp order. -/

/-- A stored time-series point (the fields the queries read back). -/
structure TimeSeriesPoint where
  metricId : String
  timestamp : ℤ
  value : ℚ
deriving DecidableEq, Repr

abbrev TSStore := List TimeSeriesPoint

/-- Ascending timestamp order (the order of a DynamoDB range query). -/
def tsAsc (a b : TimeSeriesPoint) : Prop := a.timestamp ≤ b.timestamp

instance : DecidableRel tsAsc := fun a b =>
  inferInstanceAs (Decidable (a.timestamp ≤ b.timestamp))

instance : IsTotal TimeSeriesPoint tsAsc := ⟨fun a b => le_total a.timestamp b.timestamp⟩

instance : IsTrans TimeSeriesPoint tsAsc := ⟨fun _ _ _ => le_trans⟩

/-- Descending timestamp order, the comparator
`(a, b) => b.timestamp - a.timestamp` used by `getMarketPrices`. -/
def tsDesc (a b : TimeSeriesPoint) : Prop := b.timestamp ≤ a.timestamp

instance : DecidableRel tsDesc := fun a b =>
  inferInstanceAs (Decidable (b.timestamp ≤ a.timestamp))

instance : IsTotal TimeSeriesPoint tsDesc := ⟨fun a b => le_total b.timestamp a.timestamp⟩

instance : IsTrans TimeSeriesPoint tsDesc := ⟨fun _ _ _ h h2 => le_trans h2 h⟩

/-- `getTimeSeriesData`: `timestamp BETWEEN startTime AND endTime` for
one `metricId`, ascending by the sort key. -/
def getTimeSeriesData (st : TSStore) (metricId : String)
    (startTime endTime : ℤ) : List TimeSeriesPoint :=
  List.insertionSort tsAsc
    (st.filter (fun p =>
      p.metricId = metricId ∧ startTime ≤ p.timestamp ∧ p.timestamp ≤ endTime))

/-- One entry of the `getAggregatedTimeSeriesData` result. -/
structure AggBucket where
  timestamp : ℤ
  min : ℚ
  max : ℚ
  avg : ℚ
  count : ℕ
deriving DecidableEq, Repr

/-- `Math.floor(point.timestamp / aggregationPeriodMs) * aggregationPeriodMs`
(floor division, `Int.fdiv`). -/
def periodStart (aggregationPeriodMs timestamp : ℤ) : ℤ :=
  Int.fdiv timestamp aggregationPeriodMs * aggregationPeriodMs

/-- Ascending bucket order for the final
`sort((a, b) => a.timestamp - b.timestamp)`. -/
def aggAsc (a b : AggBucket) : Prop := a.timestamp ≤ b.timestamp

instance : DecidableRel aggAsc := fun a b =>
  inferInstanceAs (Decidable (a.timestamp ≤ b.timestamp))

instance : IsTotal AggBucket aggAsc := ⟨fun a b => le_total a.timestamp b.timestamp⟩

instance : IsTrans AggBucket aggAsc := ⟨fun _ _ _ => le_trans⟩

/-- `getAggregatedTimeSeriesData`: with at most one raw point the
source returns early, reporting the RAW point timestamp; otherwise it
groups points by `periodStart` (the `periodGroups` object holds, per
key, the values of the points with that key in raw order) and sorts
the per-group aggregates ascending by bucket timestamp. -/
def getAggregatedTimeSeriesData (st : TSStore) (metricId : String)
    (startTime endTime aggregationPeriodMs : ℤ) : List AggBucket :=
  let rawData := getTimeSeriesData st metricId startTime endTime
  if rawData.length ≤ 1 then
    rawData.map (fun p => ⟨p.timestamp, p.value, p.value, p.value, 1⟩)
  else
    let keys := insertionDedup
      (rawData.map (fun p => periodStart aggregationPeriodMs p.timestamp))
    let aggregatedData := keys.map (fun k =>
      let values := (rawData.filter
        (fun p => periodStart aggregationPeriodMs p.timestamp = k)).map (·.value)
      ⟨k, listMin values, listMax values,
        values.sum / (values.length : ℚ), values.length⟩)
    List.insertionSort aggAsc aggregatedData

/-- The §7 error taxonomy: backend failures are mapped into these
kinds before crossing the component boundary.  The
`throw new Error('No data found for metric ...')` of
`calculateTimeSeriesStatistics` is the missing-data kind. -/
inductive TSError where
  | notFound (msg : String)
  | validation (msg : String)
  | provider (msg : String)
deriving DecidableEq, Repr

/-- The trend classification of `calculateTimeSeriesStatistics`. -/
inductive StatTrend where
  | increasing
  | decreasing
  | stable
deriving DecidableEq, Repr

/-- The statistics record.  `variance` is the population variance; the
returned `stdDev` is its square root, see `TSStats.stdDev`. -/
structure TSStats where
  min : ℚ
  max : ℚ
  avg : ℚ
  count : ℕ
  variance : ℚ
  trend : StatTrend
deriving DecidableEq, Repr

/-- `stdDev = Math.sqrt(variance)`. -/
noncomputable def TSStats.stdDev (s : TSStats) : ℝ := Real.sqrt (s.variance : ℝ)

/-- `calculateTimeSeriesStatistics`: min/max/avg/count, population
variance, and a trend from the simple linear regression of value
against elapsed days since the first point, with the slope guarded to
zero when the regression denominator vanishes and thresholded at
`±0.05 * avg`. -/
def calculateTimeSeriesStatistics (st : TSStore) (metricId : String)
    (startTime endTime : ℤ) : Except TSError TSStats :=
  let data := getTimeSeriesData st metricId startTime endTime
  if data.length = 0 then
    .error (.notFound ("No data found for metric " ++ metricId ++
      " in the specified time range"))
  else
    let values := data.map (·.value)
    let min := listMin values
    let max := listMax values
    let count := values.length
    let avg := values.sum / (count : ℚ)
    let variance := ((values.map (fun v => (v - avg) ^ 2)).sum) / (count : ℚ)
    let timestamps := data.map (·.timestamp)
    let firstTimestamp := timestamps.headD 0
    let normalizedTimestamps : List ℚ :=
      timestamps.map (fun t => ((t - firstTimestamp : ℤ) : ℚ) / 86400000)
    let tAvg := normalizedTimestamps.sum / (count : ℚ)
    let numerator :=
      ((normalizedTimestamps.zip values).map
        (fun tv => (tv.1 - tAvg) * (tv.2 - avg))).sum
    let denominator := ((normalizedTimestamps.map (fun t => (t - tAvg) ^ 2)).sum)
    let slope := if denominator ≠ 0 then numerator / denominator else 0
    let slopeThreshold := (1/20 : ℚ) * avg
    let trend : StatTrend :=
      if slopeThreshold < slope then .increasing
      else if slope < -slopeThreshold then .decreasing
      else .stable
    .ok ⟨min, max, avg, count, variance, trend⟩

/-- JavaScript truthiness of an optional numeric argument: `undefined`
and `0` are falsy. -/
def truthy : Option ℤ → Bool
  | none => false
  | some x => x ≠ 0

/-- `deleteTimeSeriesData`: the `BETWEEN` clause is attached only when
`startTime && endTime` is truthy, but each truthy bound is spread into
`ExpressionAttributeValues` on its own.  With exactly ONE truthy bound
the query therefore carries an unused expression attribute value and
DynamoDB rejects it — a ValidationException, the taxonomy's validation
kind — which the re-thrown error propagates, deleting nothing.
Otherwise the enumeration, and hence the per-key deletes, covers the
whole metric when both bounds are falsy, or the
`[startTime, endTime]` range when both are truthy.  Returns the store
after the deletes. -/
def deleteTimeSeriesData (st : TSStore) (metricId : String)
    (startTime endTime : Option ℤ) : Except TSError TSStore :=
  if truthy startTime ≠ truthy endTime then
    .error (.validation
      "Value provided in ExpressionAttributeValues unused in expressions")
  else
    let ranged := truthy startTime && truthy endTime
    .ok (st.filter (fun p =>
      ¬(p.metricId = metricId ∧
        (if ranged then
          startTime.getD 0 ≤ p.timestamp ∧ p.timestamp ≤ endTime.getD 0
        else True))))

/-! ## Weather forecast (`getWeatherForecast`) -/

/-- One forecast day.  The source renders
`new Date(dayStart).toISOString().split('T')[0]`; the `date` field
models that day by its epoch-millisecond day start `now + i * day`. -/
structure ForecastDay where
  date : ℤ
  highTemp : ℚ
  lowTemp : ℚ
  rainfall : ℚ
  humidity : ℚ
  windSpeed : ℚ
deriving DecidableEq, Repr

/-- The summary block: `temperature` is `undefined` when no
temperature points exist (its fields are min, max, avg). -/
structure WeatherSummary where
  temperature : Option (ℚ × ℚ × ℚ)
  rainProbability : ℚ
  agriculturalImplications : List String
deriving DecidableEq, Repr

structure WeatherForecastResult where
  district : String
  forecast : List ForecastDay
  summary : WeatherSummary
deriving DecidableEq, Repr

/-- Milliseconds per day, `24 * 60 * 60 * 1000`. -/
def dayMs : ℤ := 86400000

/-- `getWeatherForecast`: reads five per-district series over
`[now, now + days * day]`; the i-th forecast day takes the i-th point
of each series, defaulting to `(25, 15, 0, 50, 5)`; the summary and
the advisory strings are computed from the RAW series points only. -/
def getWeatherForecast (st : TSStore) (district : String) (days : ℕ)
    (now : ℤ) : WeatherForecastResult :=
  let districtId := slug district
  let endTime := now + (days : ℤ) * dayMs
  let highTempData := getTimeSeriesData st ("weather:temperature:high:" ++ districtId) now endTime
  let lowTempData := getTimeSeriesData st ("weather:temperature:low:" ++ districtId) now endTime
  let rainfallData := getTimeSeriesData st ("weather:rainfall:" ++ districtId) now endTime
  let humidityData := getTimeSeriesData st ("weather:humidity:" ++ districtId) now endTime
  let windSpeedData := getTimeSeriesData st ("weather:wind_speed:" ++ districtId) now endTime
  let forecast := (List.range days).map (fun (i : ℕ) =>
    { date := now + (i : ℤ) * dayMs
      highTemp := ((highTempData.get? i).map (·.value)).getD 25
      lowTemp := ((lowTempData.get? i).map (·.value)).getD 15
      rainfall := ((rainfallData.get? i).map (·.value)).getD 0
      humidity := ((humidityData.get? i).map (·.value)).getD 50
      windSpeed := ((windSpeedData.get? i).map (·.value)).getD 5 : ForecastDay })
  let allTemps := highTempData.map (·.value) ++ lowTempData.map (·.value)
  let temperatureSummary : Option (ℚ × ℚ × ℚ) :=
    if allTemps.length > 0 then
      some (listMin allTemps, listMax allTemps,
        allTemps.sum / (allTemps.length : ℚ))
    else none
  let totalRainfall := (rainfallData.map (·.value)).sum
  let rainProbability :=
    ((rainfallData.filter (fun p => 0 < p.value)).length : ℚ) / (days : ℚ)
  let tempImplications : List String :=
    match temperatureSummary with
    | some (mn, mx, _) =>
      if 35 < mx then
        ["High temperatures may cause heat stress in crops. Consider additional irrigation."]
      else if mn < 10 then
        ["Low temperatures may affect sensitive crops. Monitor for frost damage."]
      else
        ["Temperature conditions are favorable for most crops."]
    | none => []
  let rainImplications : List String :=
    if 50 < totalRainfall then
      ["Heavy rainfall expected. Ensure proper drainage in fields."]
    else if totalRainfall < 5 ∧ 7 ≤ days then
      ["Dry conditions expected. Plan for irrigation if available."]
    else if 0 < totalRainfall then
      ["Moderate rainfall expected. Good conditions for most crops."]
    else []
  { district := district
    forecast := forecast
    summary :=
      { temperature := temperatureSummary
        rainProbability := rainProbability
        agriculturalImplications := tempImplications ++ rainImplications } }

/-! ## Market prices (`getMarketPrices`) -/

inductive PriceTrend where
  | rising
  | falling
  | stable
deriving DecidableEq, Repr

/-- The `getMarketPrices` result.  `weeklyChange` and `monthlyChange`
model the percent values the source renders as signed
`toFixed(2)` strings; `none` models an omitted field. -/
structure MarketPricesResult where
  crop : String
  currentPrice : Option ℚ
  weeklyChange : Option ℚ
  monthlyChange : Option ℚ
  trend : Option PriceTrend
  marketArea : String
deriving DecidableEq, Repr

/-- The metric id `market:price:<crop>[:<market>]`. -/
def marketMetricId (crop marketArea : String) : String :=
  let metricId := "market:price:" ++ slug crop
  if marketArea ≠ "all" then metricId ++ ":" ++ slug marketArea else metricId

/-- `getMarketPrices`: range query over `days`, newest-first sort,
latest point as current price, percent changes against the first
point at or before `now - 7d` / `now - 30d` (skipped when absent or —
JavaScript truthiness — when the baseline value is zero), and a
±3%-thresholded trend comparing the means of the newest and oldest 7
points. -/
def getMarketPrices (st : TSStore) (crop : String) (days : ℕ)
    (marketArea : String) (now : ℤ) : MarketPricesResult :=
  let fullMetricId := marketMetricId crop marketArea
  let priceData := getTimeSeriesData st fullMetricId (now - (days : ℤ) * dayMs) now
  if priceData.length = 0 then
    ⟨crop, none, none, none, none, marketArea⟩
  else
    let sorted := List.insertionSort tsDesc priceData
    let currentPrice := ((sorted.head?).map (·.value)).getD 0
    let oneWeekAgo := now - 7 * dayMs
    let weekAgoPrice := (sorted.find? (fun p => p.timestamp ≤ oneWeekAgo)).map (·.value)
    let weeklyChange : Option ℚ :=
      match weekAgoPrice with
      | some w => if w ≠ 0 then some ((currentPrice - w) / w * 100) else none
      | none => none
    let oneMonthAgo := now - 30 * dayMs
    let monthAgoPrice := (sorted.find? (fun p => p.timestamp ≤ oneMonthAgo)).map (·.value)
    let monthlyChange : Option ℚ :=
      match monthAgoPrice with
      | some m => if m ≠ 0 then some ((currentPrice - m) / m * 100) else none
      | none => none
    let trend : Option PriceTrend :=
      if 7 ≤ sorted.length then
        let recentPrices := (sorted.take 7).map (·.value)
        let avgRecentPrice := recentPrices.sum / (recentPrices.length : ℚ)
        let olderPrices := (sorted.drop (sorted.length - 7)).map (·.value)
        let avgOlderPrice := olderPrices.sum / (olderPrices.length : ℚ)
        let changePct := (avgRecentPrice - avgOlderPrice) / avgOlderPrice * 100
        some (if 3 < changePct then .rising
          else if changePct < -3 then .falling
          else .stable)
      else none
    ⟨crop, some currentPrice, weeklyChange, monthlyChange, trend, marketArea⟩

/-! ## Vector store (`src/data/vector-db.ts`)

Stored vectors and the query vector are rational coordinate lists; the
similarity value is real because the source divides by
`Math.sqrt`-computed norms. -/

/-- A stored vector item.  `metadata` models the JSON metadata object
as a key/value list looked up by key. -/
structure VectorItem where
  id : String
  vector : List ℚ
  text : String
  metadata : List (String × String)
deriving DecidableEq, Repr

inductive VDBError where
  | validation (msg : String)
deriving DecidableEq, Repr

/-- `cosineSimilarity`: `dot(a,b) / (|a| |b|)`, and `0` when either
norm is zero.  (The source first throws on unequal dimensions;
`searchVectors` models that check, so here the shorter list bounds the
loop.) -/
noncomputable def cosineSimilarity (a b : List ℚ) : ℝ :=
  let dotProduct : ℚ := ((a.zip b).map (fun p => p.1 * p.2)).sum
  let normA : ℝ := Real.sqrt (((a.map (fun x => x * x)).sum : ℚ) : ℝ)
  let normB : ℝ := Real.sqrt (((b.map (fun x => x * x)).sum : ℚ) : ℝ)
  if normA = 0 ∨ normB = 0 then 0 else (dotProduct : ℝ) / (normA * normB)

/-- The exact-match metadata filter conjunction. -/
def matchesFilter (metadataFilter : Option (List (String × String)))
    (item : VectorItem) : Bool :=
  match metadataFilter with
  | none => true
  | some f => f.all (fun kv => item.metadata.lookup kv.1 == some kv.2)

/-- The corpus after the metadata filter, in scan order. -/
def vdbFiltered (corpus : List VectorItem)
    (metadataFilter : Option (List (String × String))) : List VectorItem :=
  corpus.filter (matchesFilter metadataFilter)

/-- Descending similarity against the query `q`, the comparator
`(a, b) => b.similarity - a.similarity` of the stable JavaScript
sort. -/
def simGE (q : List ℚ) (a b : VectorItem) : Prop :=
  cosineSimilarity q b.vector ≤ cosineSimilarity q a.vector

noncomputable instance : DecidableRel (simGE q) := fun _ _ => Classical.dec _

instance : IsTotal VectorItem (simGE q) :=
  ⟨fun a b => le_total (cosineSimilarity q b.vector) (cosineSimilarity q a.vector)⟩

instance : IsTrans VectorItem (simGE q) := ⟨fun _ _ _ h h2 => le_trans h2 h⟩

/-- The filtered corpus sorted by descending similarity. -/
noncomputable def vdbSorted (q : List ℚ) (corpus : List VectorItem)
    (metadataFilter : Option (List (String × String))) : List VectorItem :=
  List.insertionSort (simGE q) (vdbFiltered corpus metadataFilter)

/-- `searchVectors`: scores every scanned item (throwing
`ValidationError` on a dimension mismatch anywhere in the corpus),
drops metadata mismatches, sorts by descending similarity — a stable
sort, ties keep scan order — and returns the first `top_k` items. -/
noncomputable def searchVectors (corpus : List VectorItem) (queryVector : List ℚ)
    (metadataFilter : Option (List (String × String))) (top_k : ℕ) :
    Except VDBError (List VectorItem) :=
  if corpus.all (fun item => item.vector.length == queryVector.length) then
    .ok ((vdbSorted queryVector corpus metadataFilter).take top_k)
  else
    .error (.validation "Vectors must have the same dimensions")

/-! ## Helper lemmas -/

theorem mem_dedupFold [DecidableEq α] {a : α} :
    ∀ (l acc : List α),
      a ∈ l.foldl (fun acc x => if x ∈ acc then acc else acc ++ [x]) acc →
      a ∈ acc ∨ a ∈ l
  | [], acc, h => Or.inl h
  | x :: xs, acc, h => by
    rw [List.foldl_cons] at h
    rcases mem_dedupFold xs _ h with h2 | h2
    · by_cases hx : x ∈ acc
      · rw [if_pos hx] at h2
        exact Or.inl h2
      · rw [if_neg hx] at h2
        rcases List.mem_append.mp h2 with h3 | h3
        · exact Or.inl h3
        · exact Or.inr (List.mem_cons.mpr (Or.inl (List.mem_singleton.mp h3)))
    · exact Or.inr (List.mem_cons_of_mem x h2)

theorem mem_insertionDedup [DecidableEq α] {a : α} {l : List α}
    (h : a ∈ insertionDedup l) : a ∈ l :=
  (mem_dedupFold l [] h).resolve_left (by simp)

theorem reverse_prefix_ne (R : String) : ¬("reverse:" ++ R) = R := by
  intro hEq
  have h8 : ("reverse:" ++ R).length = R.length := congrArg String.length hEq
  rw [String.length_append] at h8
  have hr : ("reverse:" : String).length = 8 := rfl
  omega

theorem getRelatedEntities_false (st : KGStore) (n r : String) :
    getRelatedEntities st n r false =
    (st.filter (fun i => i.nodeId = n ∧ i.relationshipType = r ∧
      i.entityType = "RELATIONSHIP")).map (·.targetNodeId) := rfl

theorem getRelatedEntities_true (st : KGStore) (n r : String) :
    getRelatedEntities st n r true =
    (st.filter (fun i => i.nodeId = n ∧ i.relationshipType = "reverse:" ++ r ∧
      i.entityType = "RELATIONSHIP")).map (·.targetNodeId) := rfl

/-! ## C4: edge creation and bidirectional traversal -/

/-- C4: after `createEdge(A, R, B)` on a graph with no other edges at
`A` or `B`, `traverse(A, R, false) = [B]` and
`traverse(B, R, true) = [A]`, and the stored reverse edge
`(B, "reverse:" + R, A)` carries the same confidence and properties as
the forward edge. -/
theorem createEdge_traverse_roundtrip
    (st : KGStore) (A R B : String) (props : Option String)
    (conf : Option ℚ) (src : Option String)
    (h : ∀ i ∈ st, i.nodeId ≠ A ∧ i.nodeId ≠ B) :
    getRelatedEntities (createRelationship st ⟨A, R, B, props, conf, src⟩) A R false = [B] ∧
    getRelatedEntities (createRelationship st ⟨A, R, B, props, conf, src⟩) B R true = [A] ∧
    ∃ f rv,
      kgFind (createRelationship st ⟨A, R, B, props, conf, src⟩) A R = some f ∧
      kgFind (createRelationship st ⟨A, R, B, props, conf, src⟩) B ("reverse:" ++ R) = some rv ∧
      f.targetNodeId = B ∧ rv.targetNodeId = A ∧
      rv.confidence = f.confidence ∧ rv.properties = f.properties := by
  have hRR := reverse_prefix_ne R
  have hmain : createRelationship st ⟨A, R, B, props, conf, src⟩ =
      ⟨B, "reverse:" ++ R, "RELATIONSHIP", "", "", A, props,
        sourceOrDefault src, confidenceOrDefault conf⟩ ::
      ⟨A, R, "RELATIONSHIP", "", "", B, props,
        sourceOrDefault src, confidenceOrDefault conf⟩ ::
      ((st.filter (fun i => ¬(i.nodeId = A ∧ i.relationshipType = R))).filter
        (fun i => ¬(i.nodeId = B ∧ i.relationshipType = "reverse:" ++ R))) := by
    simp only [createRelationship, kgPut, List.filter_cons]
    rw [if_pos]
    simp only [decide_eq_true_eq]
    exact fun hc => hRR hc.2.symm
  have hRR2 : ¬R = ("reverse:" ++ R) := fun hc => hRR hc.symm
  refine ⟨?_, ?_, ?_⟩
  · rw [hmain, getRelatedEntities_false]
    rw [List.filter_cons_of_neg (by simp [hRR])]
    rw [List.filter_cons_of_pos (by simp)]
    rw [List.filter_eq_nil_iff.mpr (fun i hi => by
      simp only [decide_eq_true_eq]
      exact fun hc => (h i (List.mem_of_mem_filter (List.mem_of_mem_filter hi))).1 hc.1)]
    rfl
  · rw [hmain, getRelatedEntities_true]
    rw [List.filter_cons_of_pos (by simp)]
    rw [List.filter_cons_of_neg (by simp [hRR2])]
    rw [List.filter_eq_nil_iff.mpr (fun i hi => by
      simp only [decide_eq_true_eq]
      exact fun hc => (h i (List.mem_of_mem_filter (List.mem_of_mem_filter hi))).2 hc.1)]
    rfl
  · refine ⟨⟨A, R, "RELATIONSHIP", "", "", B, props,
        sourceOrDefault src, confidenceOrDefault conf⟩,
      ⟨B, "reverse:" ++ R, "RELATIONSHIP", "", "", A, props,
        sourceOrDefault src, confidenceOrDefault conf⟩,
      ?_, ?_, rfl, rfl, rfl, rfl⟩
    · rw [hmain]
      show List.find? _ _ = some _
      rw [List.find?_cons_of_neg _ (by simp [hRR])]
      rw [List.find?_cons_of_pos _ (by simp)]
    · rw [hmain]
      show List.find? _ _ = some _
      rw [List.find?_cons_of_pos _ (by simp)]

/-- C4 witness: the round-trip evaluated on the empty graph with a
concrete edge. -/
theorem createEdge_traverse_roundtrip_witness :
    getRelatedEntities (createRelationship []
      ⟨"crop:wheat", "grows_in", "location:pune", none, none, none⟩)
      "crop:wheat" "grows_in" false = ["location:pune"] := by
  have h := createEdge_traverse_roundtrip [] "crop:wheat" "grows_in" "location:pune"
    none none none (by intro i hi; simp at hi)
  exact h.1

/-! ## C1: behavior when the traversals yield no candidates -/

/-- C1: on a graph in which the three traversals yield no candidate
crop ids (here: the empty graph), `getRecommendedCrops` returns the
EMPTY list, not the non-empty fixed fallback list — the fallback lives
in the `catch` handler, which a successful empty query never
reaches. -/
theorem zeroCandidates_returns_empty_not_fallback :
    getRecommendedCrops [] "Pune" "loamy" "kharif" = [] ∧
    fallbackCrops ≠ [] ∧ fallbackCrops.length = 3 := by
  refine ⟨rfl, ?_, rfl⟩
  decide

/-! ## C3: suitability scores and result order -/

/-- C3: every returned crop scores exactly the sum of its matched
criterion weights (`+0.4` location, `+0.4` season, `+0.2` soil), so
the score lies in `{0.2, 0.4, 0.6, 0.8, 1.0}`, is positive (zero-score
candidates are excluded) and never exceeds `1.0`, and the result is
sorted in descending score order. -/
theorem getRecommendedCrops_scores_sorted
    (st : KGStore) (district soilType season : String) :
    (∀ c ∈ getRecommendedCrops st district soilType season,
      c.suitabilityScore =
        (if c.cropId ∈ locationCropIds st district then 2/5 else 0) +
        (if c.cropId ∈ seasonCropIds st season then 2/5 else 0) +
        (if c.cropId ∈ soilCropIds st soilType then 1/5 else 0) ∧
      (c.suitabilityScore = 1/5 ∨ c.suitabilityScore = 2/5 ∨
        c.suitabilityScore = 3/5 ∨ c.suitabilityScore = 4/5 ∨
        c.suitabilityScore = 1) ∧
      0 < c.suitabilityScore ∧ c.suitabilityScore ≤ 1) ∧
    List.Sorted cropGE (getRecommendedCrops st district soilType season) := by
  constructor
  · intro c hc
    rw [getRecommendedCrops, List.mem_insertionSort, cropDetails] at hc
    simp only [List.mem_filterMap] at hc
    obtain ⟨cropId, _, hf⟩ := hc
    cases hn : getNode st cropId with
    | none => rw [hn] at hf; simp at hf
    | some crop =>
      rw [hn] at hf
      simp only at hf
      have hid : crop.nodeId = cropId := by
        have hfind := List.find?_some hn
        simp only [decide_eq_true_eq] at hfind
        exact hfind.1
      by_cases h1 : cropId ∈ locationCropIds st district <;>
        by_cases h2 : cropId ∈ seasonCropIds st season <;>
          by_cases h3 : cropId ∈ soilCropIds st soilType
      all_goals simp only [h1, h2, h3, if_true, if_false] at hf
      all_goals norm_num at hf
      all_goals
        first
        | exact Option.noConfusion hf
        | (obtain rfl := hf
           simp only [hid, h1, h2, h3, if_true, if_false]
           norm_num)
  · exact List.sorted_insertionSort cropGE _

/-- C3 witness: on a one-node, one-edge graph the single returned crop
matches only the location criterion, scoring `0.4`, and the result is
sorted. -/
theorem getRecommendedCrops_scores_sorted_witness :
    (0 : ℚ) < 2/5 ∧
    List.Sorted cropGE (getRecommendedCrops
      [⟨"crop:wheat", "NODE", "NODE", "crop", "Wheat", "", none, "manual", 1⟩,
       ⟨"location:pune", "suitable_for", "RELATIONSHIP", "", "", "crop:wheat",
         none, "manual", 1⟩]
      "Pune" "Loamy" "Kharif") := by
  have h := getRecommendedCrops_scores_sorted
    [⟨"crop:wheat", "NODE", "NODE", "crop", "Wheat", "", none, "manual", 1⟩,
     ⟨"location:pune", "suitable_for", "RELATIONSHIP", "", "", "crop:wheat",
       none, "manual", 1⟩]
    "Pune" "Loamy" "Kharif"
  have hdetails : cropDetails
      [⟨"crop:wheat", "NODE", "NODE", "crop", "Wheat", "", none, "manual", 1⟩,
       ⟨"location:pune", "suitable_for", "RELATIONSHIP", "", "", "crop:wheat",
         none, "manual", 1⟩]
      "Pune" "Loamy" "Kharif" =
      [⟨"crop:wheat", "Wheat", 2/5, ["Suitable for Pune region"]⟩] := by
    have h1 : locationCropIds
        [⟨"crop:wheat", "NODE", "NODE", "crop", "Wheat", "", none, "manual", 1⟩,
         ⟨"location:pune", "suitable_for", "RELATIONSHIP", "", "", "crop:wheat",
           none, "manual", 1⟩] "Pune" = ["crop:wheat"] := by decide
    have h2 : seasonCropIds
        [⟨"crop:wheat", "NODE", "NODE", "crop", "Wheat", "", none, "manual", 1⟩,
         ⟨"location:pune", "suitable_for", "RELATIONSHIP", "", "", "crop:wheat",
           none, "manual", 1⟩] "Kharif" = [] := by decide
    have h3 : soilCropIds
        [⟨"crop:wheat", "NODE", "NODE", "crop", "Wheat", "", none, "manual", 1⟩,
         ⟨"location:pune", "suitable_for", "RELATIONSHIP", "", "", "crop:wheat",
           none, "manual", 1⟩] "Loamy" = [] := by decide
    have h5 : getNode
        [⟨"crop:wheat", "NODE", "NODE", "crop", "Wheat", "", none, "manual", 1⟩,
         ⟨"location:pune", "suitable_for", "RELATIONSHIP", "", "", "crop:wheat",
           none, "manual", 1⟩] "crop:wheat" =
        some ⟨"crop:wheat", "NODE", "NODE", "crop", "Wheat", "", none, "manual", 1⟩ := by
      decide
    simp only [cropDetails, h1, h2, h3, List.append_nil, List.nil_append]
    simp only [insertionDedup, List.foldl_cons, List.foldl_nil, List.not_mem_nil,
      if_false, List.nil_append]
    simp only [List.filterMap_cons, List.filterMap_nil, h5]
    simp only [List.mem_cons, List.not_mem_nil, or_false]
    norm_num
    decide
  refine ⟨?_, h.2⟩
  have hmem : (⟨"crop:wheat", "Wheat", 2/5, ["Suitable for Pune region"]⟩ : CropRec) ∈
      getRecommendedCrops
      [⟨"crop:wheat", "NODE", "NODE", "crop", "Wheat", "", none, "manual", 1⟩,
       ⟨"location:pune", "suitable_for", "RELATIONSHIP", "", "", "crop:wheat",
         none, "manual", 1⟩]
      "Pune" "Loamy" "Kharif" := by
    rw [getRecommendedCrops, hdetails]
    simp [List.insertionSort, List.orderedInsert]
  exact (h.1 _ hmem).2.2.1

/-! ## C7: empty range fails with the missing-data error kind -/

/-- C7: `calculateTimeSeriesStatistics` on a range containing no
points fails with the `NotFoundError` taxonomy kind (the no-data
message), not with any other error kind and not with a defaulted
result. -/
theorem statistics_empty_notFound
    (st : TSStore) (metricId : String) (startTime endTime : ℤ)
    (h : getTimeSeriesData st metricId startTime endTime = []) :
    calculateTimeSeriesStatistics st metricId startTime endTime =
      .error (.notFound ("No data found for metric " ++ metricId ++
        " in the specified time range")) := by
  simp [calculateTimeSeriesStatistics, h]

/-- C7 witness: the empty store over a concrete metric and window. -/
theorem statistics_empty_notFound_witness :
    calculateTimeSeriesStatistics [] "weather:rainfall:pune" 0 1000 =
      .error (.notFound
        "No data found for metric weather:rainfall:pune in the specified time range") :=
  statistics_empty_notFound [] "weather:rainfall:pune" 0 1000 rfl

/-! ## C6: single-point statistics -/

/-- C6 (amended): a single-point range yields variance `0` — hence
`stdDev = √0 = 0` — and trend `stable` whenever the value is
nonnegative; a NEGATIVE value yields `increasing`, because the guarded
zero slope exceeds the negative threshold `0.05 * avg`. -/
theorem statistics_single_point
    (st : TSStore) (metricId : String) (startTime endTime : ℤ)
    (p : TimeSeriesPoint)
    (h : getTimeSeriesData st metricId startTime endTime = [p]) :
    calculateTimeSeriesStatistics st metricId startTime endTime =
      .ok ⟨p.value, p.value, p.value, 1, 0,
        if p.value < 0 then .increasing else .stable⟩ ∧
    TSStats.stdDev ⟨p.value, p.value, p.value, 1, 0,
        if p.value < 0 then .increasing else .stable⟩ = 0 := by
  constructor
  · simp only [calculateTimeSeriesStatistics, h, List.map_cons, List.map_nil,
      List.length_cons, List.length_nil, List.sum_cons, List.sum_nil,
      List.headD_cons, listMin, listMax, List.foldl_nil, List.zip_cons_cons,
      List.zip_nil_right]
    norm_num
    rcases lt_or_le p.value 0 with hv | hv
    · rw [if_pos hv, if_pos (by linarith)]
    · rw [if_neg (not_lt.mpr hv), if_neg (by rw [not_lt]; linarith),
        if_neg (by rw [not_lt]; linarith)]
  · simp [TSStats.stdDev]

/-- C6 counterexample: a single stored point with a NEGATIVE value is
classified `increasing`, not `stable`, refuting the claim for
arbitrary values. -/
theorem statistics_single_negative_counterexample :
    ∃ s, calculateTimeSeriesStatistics [⟨"m", 0, -100⟩] "m" 0 10 = .ok s ∧
      s.trend = .increasing ∧ ¬s.trend = .stable := by
  have h : getTimeSeriesData [⟨"m", 0, -100⟩] "m" 0 10 = [⟨"m", 0, -100⟩] := rfl
  refine ⟨⟨-100, -100, -100, 1, 0, .increasing⟩, ?_, rfl, by simp⟩
  simp only [calculateTimeSeriesStatistics, h, List.map_cons, List.map_nil,
    List.length_cons, List.length_nil, List.sum_cons, List.sum_nil,
    List.headD_cons, listMin, listMax, List.foldl_nil, List.zip_cons_cons,
    List.zip_nil_right]
  norm_num

/-- C6 witness: a single nonnegative-valued point evaluates to
variance 0, stdDev 0 and trend `stable`. -/
theorem statistics_single_point_witness :
    calculateTimeSeriesStatistics [⟨"m", 0, 5⟩] "m" 0 10 =
      .ok ⟨5, 5, 5, 1, 0, .stable⟩ ∧
    TSStats.stdDev ⟨5, 5, 5, 1, 0, .stable⟩ = 0 := by
  have h := statistics_single_point [⟨"m", 0, 5⟩] "m" 0 10 ⟨"m", 0, 5⟩ rfl
  norm_num at h
  exact h

/-! ## C5: aggregation buckets -/

/-- C5 (amended): when the range holds at least TWO points, every
emitted bucket is keyed by `floor(timestamp / bucketMs) * bucketMs`
(a multiple of `bucketMs`), counts exactly the range points with that
floored key, is non-empty, and buckets are sorted ascending.  With
exactly ONE point the source returns early and the single bucket
carries the RAW point timestamp (so the bucket-key properties fail
there, see the counterexample). -/
theorem aggregate_buckets
    (st : TSStore) (metricId : String) (startTime endTime : ℤ)
    (aggregationPeriodMs : ℤ) (_hb : 0 < aggregationPeriodMs) :
    (2 ≤ (getTimeSeriesData st metricId startTime endTime).length →
      (∀ b ∈ getAggregatedTimeSeriesData st metricId startTime endTime
          aggregationPeriodMs,
        aggregationPeriodMs ∣ b.timestamp ∧
        b.count = ((getTimeSeriesData st metricId startTime endTime).filter
          (fun p => periodStart aggregationPeriodMs p.timestamp = b.timestamp)).length ∧
        0 < b.count) ∧
      List.Sorted aggAsc (getAggregatedTimeSeriesData st metricId startTime endTime
        aggregationPeriodMs)) ∧
    (∀ p, getTimeSeriesData st metricId startTime endTime = [p] →
      getAggregatedTimeSeriesData st metricId startTime endTime aggregationPeriodMs =
        [⟨p.timestamp, p.value, p.value, p.value, 1⟩]) := by
  constructor
  · intro hlen
    have hif : ¬((getTimeSeriesData st metricId startTime endTime).length ≤ 1) := by
      omega
    constructor
    · intro b hbmem
      rw [getAggregatedTimeSeriesData, if_neg hif, List.mem_insertionSort] at hbmem
      obtain ⟨k, hkmem, hkb⟩ := List.mem_map.mp hbmem
      have hkraw : k ∈ (getTimeSeriesData st metricId startTime endTime).map
          (fun p => periodStart aggregationPeriodMs p.timestamp) :=
        mem_insertionDedup hkmem
      obtain ⟨p0, hp0, hp0k⟩ := List.mem_map.mp hkraw
      refine ⟨?_, ?_, ?_⟩
      · rw [← hkb]
        rw [← hp0k, periodStart]
        exact Dvd.intro _ (mul_comm _ _)
      · rw [← hkb]
        simp [List.length_map]
      · rw [← hkb]
        simp only [List.length_map]
        refine List.length_pos_of_mem (a := p0) ?_
        rw [List.mem_filter]
        exact ⟨hp0, by simp [hp0k]⟩
    · rw [getAggregatedTimeSeriesData, if_neg hif]
      exact List.sorted_insertionSort aggAsc _
  · intro p hp
    simp [getAggregatedTimeSeriesData, hp]

/-- C5 counterexample: a range with exactly one point at timestamp 5
under bucket size 10 yields a bucket keyed 5, which is NOT a multiple
of the bucket size — the claim fails for single-point ranges. -/
theorem aggregate_single_point_counterexample :
    getAggregatedTimeSeriesData [⟨"m", 5, 42⟩] "m" 0 10 10 =
      [⟨5, 42, 42, 42, 1⟩] ∧ ¬((10 : ℤ) ∣ 5) := by
  exact ⟨rfl, by decide⟩

/-- C5 witness: two points in distinct buckets evaluate to multiples
of the bucket size in ascending order. -/
theorem aggregate_buckets_witness :
    (∀ b ∈ getAggregatedTimeSeriesData [⟨"m", 0, 1⟩, ⟨"m", 25, 2⟩] "m" 0 30 10,
      (10 : ℤ) ∣ b.timestamp ∧ 0 < b.count) ∧
    List.Sorted aggAsc
      (getAggregatedTimeSeriesData [⟨"m", 0, 1⟩, ⟨"m", 25, 2⟩] "m" 0 30 10) := by
  have h := aggregate_buckets [⟨"m", 0, 1⟩, ⟨"m", 25, 2⟩] "m" 0 30 10 (by norm_num)
  have h2 := h.1 (by decide)
  exact ⟨fun b hbm => ⟨(h2.1 b hbm).1, (h2.1 b hbm).2.2⟩, h2.2⟩

/-! ## C10: deleteRange bound truthiness -/

/-- C10 (amended): when BOTH bounds are falsy (omitted or zero) every
point of the metric is deleted; when both are present and non-zero,
deletion is restricted to `[startTime, endTime]`; when exactly ONE
bound is truthy the dropped `BETWEEN` clause leaves that bound as an
unused expression attribute value, DynamoDB rejects the query, and the
call fails with the validation error kind, deleting nothing. -/
theorem deleteRange_truthiness
    (st : TSStore) (metricId : String) (startTime endTime : Option ℤ) :
    (truthy startTime = false → truthy endTime = false →
      deleteTimeSeriesData st metricId startTime endTime =
        .ok (st.filter (fun p => ¬(p.metricId = metricId)))) ∧
    (∀ s e, startTime = some s → endTime = some e → s ≠ 0 → e ≠ 0 →
      deleteTimeSeriesData st metricId startTime endTime =
        .ok (st.filter (fun p =>
          ¬(p.metricId = metricId ∧ s ≤ p.timestamp ∧ p.timestamp ≤ e)))) ∧
    (truthy startTime ≠ truthy endTime →
      deleteTimeSeriesData st metricId startTime endTime =
        .error (.validation
          "Value provided in ExpressionAttributeValues unused in expressions")) := by
  refine ⟨?_, ?_, ?_⟩
  · intro hsf hef
    rw [deleteTimeSeriesData, if_neg (by rw [hsf, hef]; exact fun hc => hc rfl)]
    simp only [hsf, hef, Bool.and_self]
    refine congrArg Except.ok (List.filter_congr (fun p _ => ?_))
    simp
  · intro s e hs he hs0 he0
    have hst : truthy startTime = true := by rw [hs]; simp [truthy, hs0]
    have het : truthy endTime = true := by rw [he]; simp [truthy, he0]
    rw [deleteTimeSeriesData, if_neg (by rw [hst, het]; exact fun hc => hc rfl)]
    simp only [hst, het, Bool.and_self]
    refine congrArg Except.ok (List.filter_congr (fun p _ => ?_))
    rw [hs, he]
    simp [Option.getD]
  · intro hne
    rw [deleteTimeSeriesData, if_pos hne]

/-- C10 counterexample: with `startTime = 0` and `endTime = 100`
exactly one bound is truthy, so the source leaves an unused
`ExpressionAttributeValues` entry, DynamoDB rejects the query and the
call throws instead of deleting the stored point — refuting the
claimed mass delete (which would have returned the emptied store). -/
theorem deleteRange_mixed_bound_counterexample :
    deleteTimeSeriesData [⟨"m", 500, 2⟩] "m" (some 0) (some 100) =
      .error (.validation
        "Value provided in ExpressionAttributeValues unused in expressions") ∧
    deleteTimeSeriesData [⟨"m", 500, 2⟩] "m" (some 0) (some 100) ≠
      .ok [] := by
  refine ⟨rfl, ?_⟩
  intro hc
  rw [show deleteTimeSeriesData [⟨"m", 500, 2⟩] "m" (some 0) (some 100) =
    .error (.validation
      "Value provided in ExpressionAttributeValues unused in expressions")
    from rfl] at hc
  exact Except.noConfusion hc

/-- C10 witness: both bounds zero delete the whole metric; both bounds
non-zero delete only the in-range point; an omitted start with a
supplied end fails with the validation rejection. -/
theorem deleteRange_truthiness_witness :
    deleteTimeSeriesData [⟨"m", 5, 1⟩, ⟨"m", 500, 2⟩, ⟨"x", 5, 3⟩] "m"
      (some 0) (some 0) = .ok [⟨"x", 5, 3⟩] ∧
    deleteTimeSeriesData [⟨"m", 5, 1⟩, ⟨"m", 500, 2⟩, ⟨"x", 5, 3⟩] "m"
      (some 1) (some 100) = .ok [⟨"m", 500, 2⟩, ⟨"x", 5, 3⟩] ∧
    deleteTimeSeriesData [⟨"m", 5, 1⟩, ⟨"m", 500, 2⟩, ⟨"x", 5, 3⟩] "m"
      none (some 100) = .error (.validation
        "Value provided in ExpressionAttributeValues unused in expressions") := by
  refine ⟨?_, ?_, ?_⟩
  · rw [(deleteRange_truthiness [⟨"m", 5, 1⟩, ⟨"m", 500, 2⟩, ⟨"x", 5, 3⟩] "m"
      (some 0) (some 0)).1 (by decide) (by decide)]
    exact congrArg Except.ok (by decide)
  · rw [(deleteRange_truthiness [⟨"m", 5, 1⟩, ⟨"m", 500, 2⟩, ⟨"x", 5, 3⟩] "m"
      (some 1) (some 100)).2.1 1 100 rfl rfl (by decide) (by decide)]
    exact congrArg Except.ok (by decide)
  · exact (deleteRange_truthiness [⟨"m", 5, 1⟩, ⟨"m", 500, 2⟩, ⟨"x", 5, 3⟩] "m"
      none (some 100)).2.2 (by decide)

/-! ## C2: weather forecast defaults and advisories -/

/-- C2 (amended): with no stored points in any of the five weather
series the forecast holds exactly `days` entries filled with the
defaults `(25, 15, 0, 50, 5)` — but the temperature advisory is NOT
emitted: the summary and advisories are computed from the raw series
points only, so the advisory list never contains the
temperature-favorable string on an empty store. -/
theorem weatherForecast_defaults
    (st : TSStore) (district : String) (days : ℕ) (now : ℤ)
    (h1 : getTimeSeriesData st ("weather:temperature:high:" ++ slug district)
      now (now + (days : ℤ) * dayMs) = [])
    (h2 : getTimeSeriesData st ("weather:temperature:low:" ++ slug district)
      now (now + (days : ℤ) * dayMs) = [])
    (h3 : getTimeSeriesData st ("weather:rainfall:" ++ slug district)
      now (now + (days : ℤ) * dayMs) = [])
    (h4 : getTimeSeriesData st ("weather:humidity:" ++ slug district)
      now (now + (days : ℤ) * dayMs) = [])
    (h5 : getTimeSeriesData st ("weather:wind_speed:" ++ slug district)
      now (now + (days : ℤ) * dayMs) = []) :
    (getWeatherForecast st district days now).forecast =
      (List.range days).map (fun (i : ℕ) =>
        ⟨now + (i : ℤ) * dayMs, 25, 15, 0, 50, 5⟩) ∧
    "Temperature conditions are favorable for most crops." ∉
      (getWeatherForecast st district days now).summary.agriculturalImplications := by
  constructor
  · simp [getWeatherForecast, h1, h2, h3, h4, h5]
  · simp only [getWeatherForecast, h1, h2, h3, h4, h5]
    norm_num
    intro _
    decide

/-- C2 counterexample: `weatherForecast("Pune", 3)` with no stored
data returns the three default-filled days but an EMPTY advisory list:
the temperature advisory claimed by the spec is absent. -/
theorem weatherForecast_no_advisory_counterexample :
    (getWeatherForecast [] "Pune" 3 0).forecast =
      [⟨0, 25, 15, 0, 50, 5⟩, ⟨dayMs, 25, 15, 0, 50, 5⟩,
        ⟨2 * dayMs, 25, 15, 0, 50, 5⟩] ∧
    (getWeatherForecast [] "Pune" 3 0).summary.agriculturalImplications = [] ∧
    "Temperature conditions are favorable for most crops." ∉
      (getWeatherForecast [] "Pune" 3 0).summary.agriculturalImplications := by
  refine ⟨by decide, by decide, ?_⟩
  intro hmem
  rw [show (getWeatherForecast [] "Pune" 3 0).summary.agriculturalImplications =
    [] from by decide] at hmem
  exact List.not_mem_nil _ hmem

/-- C2 witness: the amended theorem evaluated on the empty store. -/
theorem weatherForecast_defaults_witness :
    (getWeatherForecast [] "Nagpur" 2 100).forecast =
      (List.range 2).map (fun (i : ℕ) =>
        ⟨100 + (i : ℤ) * dayMs, 25, 15, 0, 50, 5⟩) ∧
    "Temperature conditions are favorable for most crops." ∉
      (getWeatherForecast [] "Nagpur" 2 100).summary.agriculturalImplications :=
  weatherForecast_defaults [] "Nagpur" 2 100 rfl rfl rfl rfl rfl

/-! ## C8: market price weekly change -/

/-- C8: for daily prices `2120..2200` with the oldest point exactly at
`now - 7d` and the newest at `now`, `getMarketPrices` reports current
price `2200` and a weekly change of `(2200 - 2120)/2120 * 100 =
200/53`, which rounds to `+3.77%` and is nonnegative (rendered with a
`+` sign); the baseline is the most recent point at or before
`now - 7d`, and when no such point exists the weekly change is
omitted. -/
theorem marketPrices_weeklyChange :
    ((getMarketPrices
        [⟨"market:price:rice", 0, 2120⟩, ⟨"market:price:rice", 2 * dayMs, 2130⟩,
         ⟨"market:price:rice", 3 * dayMs, 2140⟩, ⟨"market:price:rice", 4 * dayMs, 2150⟩,
         ⟨"market:price:rice", 5 * dayMs, 2170⟩, ⟨"market:price:rice", 6 * dayMs, 2190⟩,
         ⟨"market:price:rice", 7 * dayMs, 2200⟩]
        "Rice" 30 "all" (7 * dayMs)).currentPrice = some 2200 ∧
      (getMarketPrices
        [⟨"market:price:rice", 0, 2120⟩, ⟨"market:price:rice", 2 * dayMs, 2130⟩,
         ⟨"market:price:rice", 3 * dayMs, 2140⟩, ⟨"market:price:rice", 4 * dayMs, 2150⟩,
         ⟨"market:price:rice", 5 * dayMs, 2170⟩, ⟨"market:price:rice", 6 * dayMs, 2190⟩,
         ⟨"market:price:rice", 7 * dayMs, 2200⟩]
        "Rice" 30 "all" (7 * dayMs)).weeklyChange = some (200/53) ∧
      round ((200/53 : ℚ) * 100) = (377 : ℤ) ∧ (0 : ℚ) ≤ 200/53) ∧
    (∀ (store : TSStore) (crop : String) (days : ℕ) (marketArea : String) (now : ℤ),
      (∀ p ∈ getTimeSeriesData store (marketMetricId crop marketArea)
          (now - (days : ℤ) * dayMs) now, ¬(p.timestamp ≤ now - 7 * dayMs)) →
      (getMarketPrices store crop days marketArea now).weeklyChange = none) := by
  constructor
  · refine ⟨rfl, ?_, ?_, by norm_num⟩
    · have hwc : (getMarketPrices
          [⟨"market:price:rice", 0, 2120⟩, ⟨"market:price:rice", 2 * dayMs, 2130⟩,
           ⟨"market:price:rice", 3 * dayMs, 2140⟩, ⟨"market:price:rice", 4 * dayMs, 2150⟩,
           ⟨"market:price:rice", 5 * dayMs, 2170⟩, ⟨"market:price:rice", 6 * dayMs, 2190⟩,
           ⟨"market:price:rice", 7 * dayMs, 2200⟩]
          "Rice" 30 "all" (7 * dayMs)).weeklyChange =
          some (((2200 : ℚ) - 2120) / 2120 * 100) := rfl
      rw [hwc]
      norm_num
    · rw [round_eq]
      norm_num
  · intro store crop days marketArea now hnone
    by_cases hL : (getTimeSeriesData store (marketMetricId crop marketArea)
        (now - (days : ℤ) * dayMs) now).length = 0
    · simp [getMarketPrices, hL]
    · have hfind : List.find? (fun p => p.timestamp ≤ now - 7 * dayMs)
          (List.insertionSort tsDesc (getTimeSeriesData store
            (marketMetricId crop marketArea) (now - (days : ℤ) * dayMs) now)) =
          none := by
        rw [List.find?_eq_none]
        intro x hx
        simp only [decide_eq_true_eq]
        exact hnone x ((List.mem_insertionSort tsDesc).mp hx)
      simp [getMarketPrices, hL, hfind]

/-- C8 witness: with no stored points at all there is no baseline
point at or before `now - 7d` and the weekly change is omitted. -/
theorem marketPrices_weeklyChange_witness :
    (getMarketPrices [] "x" 5 "all" 0).weeklyChange = none :=
  marketPrices_weeklyChange.2 [] "x" 5 "all" 0 (by
    intro p hp
    rw [show getTimeSeriesData [] (marketMetricId "x" "all")
      (0 - (5 : ℕ) * dayMs) 0 = [] from rfl] at hp
    exact absurd hp (List.not_mem_nil p))

/-! ## C9: vector search ranking -/

/-- C9: on a corpus whose vector dimensions all match the query,
`searchVectors` returns the first `top_k` items of the
similarity-sorted filtered corpus: at most `top_k` items,
non-increasing in cosine similarity, equal to the whole (sorted)
filtered corpus when `top_k` is at least its size, and the stable sort
keeps insertion (scan) order for equal similarities. -/
theorem searchVectors_topk_sorted
    (corpus : List VectorItem) (q : List ℚ)
    (metadataFilter : Option (List (String × String))) (k : ℕ)
    (hdim : corpus.all (fun item => item.vector.length == q.length) = true) :
    searchVectors corpus q metadataFilter k =
      .ok ((vdbSorted q corpus metadataFilter).take k) ∧
    ((vdbSorted q corpus metadataFilter).take k).length ≤ k ∧
    List.Sorted (simGE q) ((vdbSorted q corpus metadataFilter).take k) ∧
    ((vdbFiltered corpus metadataFilter).length ≤ k →
      List.Perm ((vdbSorted q corpus metadataFilter).take k)
        (vdbFiltered corpus metadataFilter)) ∧
    (∀ a b, cosineSimilarity q a.vector = cosineSimilarity q b.vector →
      List.Sublist [a, b] (vdbFiltered corpus metadataFilter) →
      List.Sublist [a, b] (vdbSorted q corpus metadataFilter)) := by
  refine ⟨?_, ?_, ?_, ?_, ?_⟩
  · rw [searchVectors, if_pos hdim]
  · rw [List.length_take]
    exact min_le_left _ _
  · exact List.Pairwise.sublist (List.take_sublist _ _)
      (List.sorted_insertionSort (simGE q) _)
  · intro hk
    rw [vdbSorted, List.take_of_length_le
      (by rw [(List.perm_insertionSort (simGE q) _).length_eq]; exact hk)]
    exact List.perm_insertionSort (simGE q) _
  · intro a b hsim hsub
    exact List.pair_sublist_insertionSort (le_of_eq hsim.symm) hsub

/-- C9 witness: a one-item corpus with matching dimensions under
`top_k = 5`. -/
theorem searchVectors_topk_sorted_witness :
    searchVectors [⟨"a", [1], "t", []⟩] [1] none 5 =
      .ok ((vdbSorted [1] [⟨"a", [1], "t", []⟩] none).take 5) ∧
    ((vdbSorted [1] [⟨"a", [1], "t", []⟩] none).take 5).length ≤ 5 ∧
    ((vdbFiltered [⟨"a", [1], "t", []⟩] none).length ≤ 5 →
      List.Perm ((vdbSorted [1] [⟨"a", [1], "t", []⟩] none).take 5)
        (vdbFiltered [⟨"a", [1], "t", []⟩] none)) := by
  have h := searchVectors_topk_sorted [⟨"a", [1], "t", []⟩] [1] none 5 (by decide)
  exact ⟨h.1, h.2.1, h.2.2.2.1⟩

end KisanMitra
